import Mathlib

/-!
Verification of the event photo-sharing backend (src/index.js): the per-user
conversation state machine of the Telegram bot and the guest-upload
admission control of the HTTP API, shallowly embedded in Lean.

Modelling conventions:
* Mongo documents become Lean structures; the durable store is a `Store`
  record holding the list of persisted Events and Photos, in insertion order.
* The `userStates` JS `Map` becomes a function `String → Option Session`.
* `status`, `serviceType`, `uploadType` and the session `step` are kept as
  strings, exactly as the source compares them.
* External I/O (Cloudinary upload, Mongo save) is threaded as explicit
  oracles: an `Except Unit ImgRef` for an image transfer, a `Nat → Bool`
  success function for the sequence of database saves in finalization.
* Timestamps (`createdAt`, `uploadedAt`) and the newest-first sort of the
  query surface are not modelled: no verified property concerns ordering
  by time.  `Math.random`-based event-id generation is abstracted as a
  parameter of the start handler.
-/

/-- An image reference as returned by `uploadToCloudinary`:
`{ public_id: result.public_id, url: result.secure_url }`. -/
structure ImgRef where
  public_id : String
  url : String
deriving DecidableEq, Repr

/-- `uploaderInfo: { ip: String, userAgent: String }` of a guest Photo. -/
structure UploaderInfo where
  ip : String
  userAgent : String
deriving DecidableEq, Repr

/-- The `Event` Mongo model (src/index.js lines 32-43), timestamps omitted. -/
structure Event where
  eventId : String
  welcomeText : String
  description : String
  backgroundImage : Option ImgRef
  serviceType : String
  uploadLimit : Int
  preloadedPhotos : List ImgRef
  createdBy : String
  status : String
deriving DecidableEq, Repr

/-- The `Photo` Mongo model (src/index.js lines 45-53), timestamp omitted. -/
structure Photo where
  eventId : String
  public_id : String
  url : String
  uploadType : String
  uploaderInfo : Option UploaderInfo
  approved : Bool
deriving DecidableEq, Repr

/-- The durable store: all persisted Events and Photos, in insertion order. -/
structure Store where
  events : List Event
  photos : List Photo
deriving DecidableEq, Repr

/-- `Event.findOne({ eventId })`: first stored Event with that id. -/
def findEvent (st : Store) (eid : String) : Option Event :=
  st.events.find? (fun e => e.eventId = eid)

/-- Whether a Photo's `uploaderInfo.ip` matches a given ip, as the Mongo
query `'uploaderInfo.ip': req.ip` does (a Photo without `uploaderInfo`
never matches). -/
def matchIp (p : Photo) (ip : String) : Bool :=
  match p.uploaderInfo with
  | some info => info.ip = ip
  | none => false

/-- `Photo.countDocuments({ eventId, uploadType: 'guest', 'uploaderInfo.ip': ip })`
(src/index.js lines 250-254). -/
def guestCount (st : Store) (eid ip : String) : Nat :=
  (st.photos.filter (fun p =>
    p.eventId = eid ∧ p.uploadType = "guest" ∧ matchIp p ip = true)).length

/-- Outcome of the guest-upload route: an HTTP error (status, message) or
the created Photo. -/
inductive UploadResult where
  | err (status : Nat) (msg : String)
  | ok (photo : Photo)
deriving DecidableEq, Repr

/-- Whether an upload outcome is a success. -/
def UploadResult.isOk : UploadResult → Bool
  | .ok _ => true
  | _ => false

/-- The Photo document built on an admitted guest upload
(src/index.js lines 264-270). -/
def newGuestPhoto (eid ip ua : String) (ref : ImgRef) : Photo :=
  { eventId := eid
    public_id := ref.public_id
    url := ref.url
    uploadType := "guest"
    uploaderInfo := some { ip := ip, userAgent := ua }
    approved := true }

/-- The Gatekeeper: `POST /api/upload/:eventId` (src/index.js lines 242-280).
`storage` is the outcome of the Cloudinary transfer for this request. -/
def submit (st : Store) (eid ip ua : String) (storage : Except Unit ImgRef) :
    UploadResult × Store :=
  match findEvent st eid with
  | none => (.err 400 "Uploads not allowed", st)
  | some e =>
    if e.status = "disabled" ∨ e.serviceType = "viewalbum" then
      (.err 400 "Uploads not allowed", st)
    else if e.uploadLimit ≤ (guestCount st eid ip : Int) then
      (.err 400 "Upload limit reached", st)
    else
      match storage with
      | .error _ => (.err 500 "Upload failed", st)
      | .ok ref =>
        let p := newGuestPhoto eid ip ua ref
        (.ok p, { st with photos := st.photos ++ [p] })

/-- Response of `GET /api/events/:eventId` when the Event exists. -/
structure EventSummary where
  event : Event
  preloadedPhotos : List Photo
  guestPhotos : List Photo
  uploadEnabled : Bool
deriving DecidableEq, Repr

/-- The query surface: `GET /api/events/:eventId`
(src/index.js lines 221-239); read-only, newest-first sort not modelled. -/
def getEvent (st : Store) (eid : String) : Option EventSummary :=
  match findEvent st eid with
  | none => none
  | some e =>
    some { event := e
           preloadedPhotos :=
             st.photos.filter (fun p => p.eventId = eid ∧ p.uploadType = "preloaded")
           guestPhotos :=
             st.photos.filter (fun p =>
               p.eventId = eid ∧ p.uploadType = "guest" ∧ p.approved = true)
           uploadEnabled := e.status = "active" ∧ e.serviceType ≠ "viewalbum" }

/-- The partially built Event accumulated by a conversation
(`userState.eventData`).  A JS field that may still be `undefined` becomes
an `Option`; the possibly-undefined `preloadedPhotos` array is collapsed to
a list (`undefined` and `[]` are observationally equal downstream: the
`/done` handler only iterates over it). -/
structure EventDraft where
  eventId : String
  createdBy : String
  welcomeText : Option String
  description : Option String
  backgroundImage : Option ImgRef
  serviceType : Option String
  uploadLimit : Option Int
  preloadedPhotos : List ImgRef
deriving DecidableEq, Repr

/-- A conversation session (`userStates` entry): current step tag plus the
draft.  The `/disable` command stores a session without `eventData`; that
flow never reads the draft, so it is modelled with an empty placeholder
draft. -/
structure Session where
  step : String
  eventData : EventDraft
deriving DecidableEq, Repr

/-- The `userStates` map, as a partial lookup function. -/
def SessMap : Type := String → Option Session

/-- `userStates.get`. -/
def lookupS (m : SessMap) (k : String) : Option Session := m k

/-- `userStates.set`. -/
def mapSet (m : SessMap) (k : String) (v : Session) : SessMap :=
  fun x => if x = k then some v else m x

/-- `userStates.delete`. -/
def mapDel (m : SessMap) (k : String) : SessMap :=
  fun x => if x = k then none else m x

/-- The empty `userStates` map. -/
def emptyMap : SessMap := fun _ => none

/-- JS whitespace accepted by `parseInt` before the number (common cases). -/
def isSpaceJS (c : Char) : Bool :=
  c = ' ' ∨ c = '\t' ∨ c = '\n' ∨ c = '\r'

/-- Value of a hexadecimal digit. -/
def hexVal (c : Char) : Nat :=
  if '0' ≤ c ∧ c ≤ '9' then c.toNat - '0'.toNat
  else if 'a' ≤ c ∧ c ≤ 'f' then c.toNat - 'a'.toNat + 10
  else c.toNat - 'A'.toNat + 10

/-- Whether a char is a hexadecimal digit. -/
def isHexDigit (c : Char) : Bool :=
  ('0' ≤ c ∧ c ≤ '9') ∨ ('a' ≤ c ∧ c ≤ 'f') ∨ ('A' ≤ c ∧ c ≤ 'F')

/-- Parse the longest digit run at the front of `cs`; `none` when empty,
mirroring `parseInt` returning `NaN` when no digit is consumed. -/
def parseDigitRun (base : Nat) (isDigit : Char → Bool) (val : Char → Nat)
    (cs : List Char) : Option Nat :=
  let ds := cs.takeWhile isDigit
  if ds.isEmpty then none
  else some (ds.foldl (fun a c => a * base + val c) 0)

/-- JS `parseInt(text)` with no explicit radix: skip leading whitespace,
optional sign, `0x`/`0X` hexadecimal prefix, then the longest run of
digits; `none` stands for `NaN`. -/
def parseIntJS (s : String) : Option Int :=
  let cs := s.toList.dropWhile isSpaceJS
  let (sign, body) : Int × List Char :=
    match cs with
    | '-' :: rest => (-1, rest)
    | '+' :: rest => (1, rest)
    | _ => (1, cs)
  let mag : Option Nat :=
    match body with
    | '0' :: x :: rest =>
      if x = 'x' ∨ x = 'X' then parseDigitRun 16 isHexDigit hexVal rest
      else parseDigitRun 10 (fun c => c.isDigit) (fun c => c.toNat - '0'.toNat) body
    | _ => parseDigitRun 10 (fun c => c.isDigit) (fun c => c.toNat - '0'.toNat) body
  mag.map (fun n => sign * n)

/-- `text.replace('/', '')`: remove the first slash. -/
def stripSlash (t : String) : String := String.mk (t.toList.erase '/')

/-- Set the status of the first Event with the given id to `disabled`
(the effect of `event.status = 'disabled'; await event.save()` on the
document returned by `findOne`). -/
def disableFirst : List Event → String → List Event
  | [], _ => []
  | e :: es, eid =>
    if e.eventId = eid then { e with status := "disabled" } :: es
    else e :: disableFirst es eid

/-- Store after the disable flow persisted the change. -/
def disableEvent (st : Store) (eid : String) : Store :=
  { st with events := disableFirst st.events eid }

/-- The draft placed by `/start`: `{ eventId, createdBy: userId }`. -/
def initDraft (eid uid : String) : EventDraft :=
  { eventId := eid
    createdBy := uid
    welcomeText := none
    description := none
    backgroundImage := none
    serviceType := none
    uploadLimit := none
    preloadedPhotos := [] }

/-- Placeholder for the absent `eventData` of a `/disable` session. -/
def emptyDraft : EventDraft := initDraft "" ""

/-- `bot.start` (src/index.js lines 69-79); the generated event id is a
parameter (the source draws it from `Math.random`). -/
def handleStart (m : SessMap) (uid eid : String) : SessMap × List String :=
  (mapSet m uid { step := "welcomeText", eventData := initDraft eid uid },
   ["🎉 Event Created! ID: " ++ eid ++ "\nEnter welcome text (max 100 chars):"])

/-- `bot.command('disable')` (src/index.js lines 208-212). -/
def handleDisableCmd (m : SessMap) (uid : String) : SessMap × List String :=
  (mapSet m uid { step := "eventIdForDisable", eventData := emptyDraft },
   ["Enter Event ID to disable uploads:"])

/-- `bot.on('text')` (src/index.js lines 82-137).  `dbOk` is the outcome of
the `event.save()` in the disable branch.  Early `return ctx.reply(...)`
paths skip the trailing `userStates.set`, hence leave the map untouched;
the disable branch runs `delete` then the trailing `set`, re-inserting the
session. -/
def handleText (dbOk : Bool) (m : SessMap) (st : Store) (uid text : String) :
    SessMap × Store × List String :=
  match lookupS m uid with
  | none => (m, st, [])
  | some s =>
    if s.step = "welcomeText" then
      if 100 < text.length then (m, st, ["❌ Too long! Max 100 chars:"])
      else
        (mapSet m uid { s with
           eventData := { s.eventData with welcomeText := some text }
           step := "description" },
         st, ["✅ Now enter description (max 200 chars):"])
    else if s.step = "description" then
      if 200 < text.length then (m, st, ["❌ Too long! Max 200 chars:"])
      else
        (mapSet m uid { s with
           eventData := { s.eventData with description := some text }
           step := "backgroundImage" },
         st, ["✅ Now send background image:"])
    else if s.step = "serviceType" then
      if ¬ (text = "/both" ∨ text = "/viewalbum" ∨ text = "/uploadpics") then
        (m, st, ["❌ Use /both, /viewalbum, or /uploadpics"])
      else
        (mapSet m uid { s with
           eventData := { s.eventData with serviceType := some (stripSlash text) }
           step := "uploadLimit" },
         st, ["✅ Enter upload limit (1-20):"])
    else if s.step = "uploadLimit" then
      match parseIntJS text with
      | none => (m, st, ["❌ Enter number 1-20:"])
      | some v =>
        if v < 1 ∨ 20 < v then (m, st, ["❌ Enter number 1-20:"])
        else
          (mapSet m uid { s with
             eventData := { s.eventData with uploadLimit := some v }
             step := "preloadedPhotos" },
           st, ["✅ Send preloaded photos (type /done when finished):"])
    else if s.step = "eventIdForDisable" then
      match findEvent st text with
      | none => (m, st, ["❌ Event not found"])
      | some _ =>
        if dbOk then
          (mapSet (mapDel m uid) uid s, disableEvent st text,
           ["✅ Uploads disabled for event: " ++ text])
        else
          (mapSet (mapDel m uid) uid s, st, ["❌ Failed to disable event"])
    else
      (mapSet m uid s, st, [])

/-- `bot.on('photo')` (src/index.js lines 140-173).  `storage` is the
outcome of the download-and-Cloudinary-transfer step; its failure is
caught and reported without touching the session. -/
def handlePhoto (m : SessMap) (st : Store) (uid : String)
    (storage : Except Unit ImgRef) : SessMap × Store × List String :=
  match lookupS m uid with
  | none => (m, st, [])
  | some s =>
    match storage with
    | .error _ => (m, st, ["❌ Failed to upload image"])
    | .ok ref =>
      if s.step = "backgroundImage" then
        (mapSet m uid { s with
           eventData := { s.eventData with backgroundImage := some ref }
           step := "serviceType" },
         st, ["✅ Background set! Choose: /both, /viewalbum, or /uploadpics"])
      else if s.step = "preloadedPhotos" then
        (mapSet m uid { s with
           eventData := { s.eventData with
             preloadedPhotos := s.eventData.preloadedPhotos ++ [ref] } },
         st, ["✅ Photo added! Send more or /done"])
      else
        (mapSet m uid s, st, [])

/-- The Event document built from the draft by `new Event(userState.eventData)`,
with the schema defaults (`serviceType: 'both'`, `uploadLimit: 5`,
`status: 'active'`) applied to fields the draft left unset. -/
def eventOfDraft (d : EventDraft) : Event :=
  { eventId := d.eventId
    welcomeText := d.welcomeText.getD ""
    description := d.description.getD ""
    backgroundImage := d.backgroundImage
    serviceType := d.serviceType.getD "both"
    uploadLimit := d.uploadLimit.getD 5
    preloadedPhotos := d.preloadedPhotos
    createdBy := d.createdBy
    status := "active" }

/-- The Photo document persisted for one preloaded image
(src/index.js lines 188-193). -/
def mkPreloadedPhoto (eid : String) (ref : ImgRef) : Photo :=
  { eventId := eid
    public_id := ref.public_id
    url := ref.url
    uploadType := "preloaded"
    uploaderInfo := none
    approved := true }

/-- The `for (const photo of preloadedPhotos) { ...save() }` loop of the
`/done` handler.  `saveOk i` is the outcome of the i-th database save of
this finalization; the loop stops at the first failing save (the thrown
error reaches the surrounding catch), leaving earlier saves persisted.
Returns the store and whether every save succeeded. -/
def savePreloaded (saveOk : Nat → Bool) (eid : String) :
    List ImgRef → Nat → Store → Store × Bool
  | [], _, st => (st, true)
  | ref :: rest, i, st =>
    if saveOk i then
      savePreloaded saveOk eid rest (i + 1)
        { st with photos := st.photos ++ [mkPreloadedPhoto eid ref] }
    else (st, false)

/-- Success reply of the `/done` handler. -/
def doneReply (frontendUrl eid : String) : String :=
  "🎊 Event Complete!\nID: " ++ eid ++ "\nURL: " ++ frontendUrl ++ "/event/"
    ++ eid ++ "\nUse /disable to stop uploads."

/-- `bot.command('done')` (src/index.js lines 176-205).  Save number 0 is
the `event.save()`; save number `i + 1` is the save of the i-th preloaded
photo.  Outside the `preloadedPhotos` step (session absent included) the
handler does nothing. -/
def finalizeDone (saveOk : Nat → Bool) (frontendUrl : String) (m : SessMap)
    (st : Store) (uid : String) : SessMap × Store × List String :=
  match lookupS m uid with
  | none => (m, st, [])
  | some s =>
    if s.step = "preloadedPhotos" then
      if saveOk 0 then
        let st1 := { st with events := st.events ++ [eventOfDraft s.eventData] }
        let (st2, allOk) :=
          savePreloaded saveOk s.eventData.eventId s.eventData.preloadedPhotos 1 st1
        (mapDel m uid, st2,
         [if allOk then doneReply frontendUrl s.eventData.eventId
          else "❌ Failed to create event"])
      else (mapDel m uid, st, ["❌ Failed to create event"])
    else (m, st, [])

/-- Branch-by-branch test of the code's input validation for the current
step, used to state the frame property of rejected inputs.  Mirrors the
rejecting conditions of `handleText`; steps without a text-validation
branch (`backgroundImage`, `preloadedPhotos`) have no invalid input. -/
def invalidInput (st : Store) (s : Session) (text : String) : Bool :=
  if s.step = "welcomeText" then decide (100 < text.length)
  else if s.step = "description" then decide (200 < text.length)
  else if s.step = "serviceType" then
    ¬ (text = "/both" ∨ text = "/viewalbum" ∨ text = "/uploadpics")
  else if s.step = "uploadLimit" then
    match parseIntJS text with
    | none => true
    | some v => decide (v < 1 ∨ 20 < v)
  else if s.step = "eventIdForDisable" then (findEvent st text).isNone
  else false

/-! ### Concrete fixtures used by witnesses and counterexamples -/

/-- A sample image reference. -/
def refA : ImgRef := { public_id := "pid1", url := "url1" }

/-- A second sample image reference. -/
def refB : ImgRef := { public_id := "pid2", url := "url2" }

/-- An active Event accepting uploads, `uploadLimit = 2`. -/
def evA : Event :=
  { eventId := "E1", welcomeText := "Hi", description := "Party"
    backgroundImage := none, serviceType := "both", uploadLimit := 2
    preloadedPhotos := [], createdBy := "u1", status := "active" }

/-- A disabled Event. -/
def evDisabled : Event := { evA with eventId := "E2", status := "disabled" }

/-- An active Event with `uploadLimit = 1`. -/
def evOne : Event := { evA with eventId := "E4", uploadLimit := 1 }

/-- Store holding just the active Event `E1`. -/
def stA : Store := { events := [evA], photos := [] }

/-- Store where uploader `ip1` has exhausted the quota of Event `E4`. -/
def stQ : Store :=
  { events := [evOne], photos := [newGuestPhoto "E4" "ip1" "ua1" refA] }

/-- A session sitting at the `welcomeText` step. -/
def sWT : Session := { step := "welcomeText", eventData := initDraft "E9" "u1" }

/-- A session sitting at the `description` step. -/
def sDE : Session :=
  { step := "description"
    eventData := { initDraft "E9" "u1" with welcomeText := some "Hi" } }

/-- A session sitting at the `uploadLimit` step. -/
def sUL : Session :=
  { step := "uploadLimit"
    eventData := { initDraft "E9" "u1" with
      welcomeText := some "Hi", description := some "Party"
      backgroundImage := some refA, serviceType := some "both" } }

/-- The fully collected draft of the finalization fixtures. -/
def dC : EventDraft :=
  { initDraft "E7" "u9" with
      welcomeText := some "Hello", description := some "Fest"
      backgroundImage := some refA, serviceType := some "both"
      uploadLimit := some 3, preloadedPhotos := [refA, refB] }

/-- A session at the `preloadedPhotos` step with two collected images. -/
def sC : Session := { step := "preloadedPhotos", eventData := dC }

/-- `userStates` holding `sWT` for user `u1`. -/
def mW : SessMap := mapSet emptyMap "u1" sWT

/-- `userStates` holding `sDE` for user `u1`. -/
def mDE : SessMap := mapSet emptyMap "u1" sDE

/-- `userStates` holding `sUL` for user `u1`. -/
def mUL : SessMap := mapSet emptyMap "u1" sUL

/-- `userStates` holding `sC` for user `u9`. -/
def mC : SessMap := mapSet emptyMap "u9" sC

/-- A session in the disable flow. -/
def sDis : Session := { step := "eventIdForDisable", eventData := emptyDraft }

/-- `userStates` holding `sDis` for user `u2`. -/
def mDis : SessMap := mapSet emptyMap "u2" sDis

/-- Event `E1` after the disable flow. -/
def evDis1 : Event := { evA with status := "disabled" }

/-- The query-surface response for Event `E1` in `stA`. -/
def rW : EventSummary :=
  { event := evA, preloadedPhotos := [], guestPhotos := [], uploadEnabled := true }

/-- A text of 100 characters. -/
def t100 : String := String.mk (List.replicate 100 'a')

/-- A text of 101 characters. -/
def t101 : String := String.mk (List.replicate 101 'a')

/-- A text of 200 characters. -/
def t200 : String := String.mk (List.replicate 200 'b')

/-- A text of 201 characters. -/
def t201 : String := String.mk (List.replicate 201 'b')

/-! ### Helper lemmas -/

/-- Looking up the key just set returns the new session. -/
lemma lookupS_mapSet_self (m : SessMap) (k : String) (v : Session) :
    lookupS (mapSet m k v) k = some v := by
  simp [lookupS, mapSet]

/-- `findEvent` ignores the photo collection. -/
lemma findEvent_setPhotos (st : Store) (ps : List Photo) (eid : String) :
    findEvent { st with photos := ps } eid = findEvent st eid := rfl

/-- Appending a matching guest Photo increments the quota count. -/
lemma guestCount_append_guest (st : Store) (eid ip ua : String) (ref : ImgRef) :
    guestCount { st with photos := st.photos ++ [newGuestPhoto eid ip ua ref] } eid ip
      = guestCount st eid ip + 1 := by
  simp [guestCount, newGuestPhoto, List.filter_append, matchIp]

/-- An admitted guest upload returns the created Photo and appends it. -/
lemma submit_accepts (st : Store) (eid ip ua : String) (e : Event) (ref : ImgRef)
    (hfind : findEvent st eid = some e) (hs : e.status ≠ "disabled")
    (hv : e.serviceType ≠ "viewalbum")
    (hcnt : (guestCount st eid ip : Int) < e.uploadLimit) :
    submit st eid ip ua (.ok ref) =
      (.ok (newGuestPhoto eid ip ua ref),
       { st with photos := st.photos ++ [newGuestPhoto eid ip ua ref] }) := by
  simp [submit, hfind, hs, hv, not_le.mpr hcnt]

/-- A submission over quota is rejected with the limit message. -/
lemma submit_reject_quota (st : Store) (eid ip ua : String) (e : Event)
    (img : Except Unit ImgRef)
    (hfind : findEvent st eid = some e) (hs : e.status ≠ "disabled")
    (hv : e.serviceType ≠ "viewalbum")
    (hcnt : e.uploadLimit ≤ (guestCount st eid ip : Int)) :
    submit st eid ip ua img = (.err 400 "Upload limit reached", st) := by
  simp [submit, hfind, hs, hv, hcnt]

/-- With every save succeeding, the photo loop appends all preloaded images. -/
lemma savePreloaded_allOk (eid : String) (ps : List ImgRef) (i : Nat) (st : Store) :
    savePreloaded (fun _ => true) eid ps i st =
      ({ st with photos := st.photos ++ ps.map (mkPreloadedPhoto eid) }, true) := by
  induction ps generalizing i st with
  | nil => simp [savePreloaded]
  | cons p rest ih => simp [savePreloaded, ih]

/-- The photo loop persists a prefix of the preloaded list; the success flag
is true exactly when the whole list was saved. -/
lemma savePreloaded_spec (saveOk : Nat → Bool) (eid : String) (ps : List ImgRef)
    (i : Nat) (st : Store) :
    ∃ k, k ≤ ps.length ∧
      (savePreloaded saveOk eid ps i st).1 =
        { st with photos := st.photos ++ (ps.take k).map (mkPreloadedPhoto eid) } ∧
      ((savePreloaded saveOk eid ps i st).2 = true ↔ k = ps.length) := by
  induction ps generalizing i st with
  | nil => exact ⟨0, by simp [savePreloaded]⟩
  | cons p rest ih =>
    by_cases hok : saveOk i = true
    · obtain ⟨k, hk, hst, hflag⟩ :=
        ih (i + 1) { st with photos := st.photos ++ [mkPreloadedPhoto eid p] }
      refine ⟨k + 1, by simpa using hk, ?_, ?_⟩
      · simp [savePreloaded, hok, hst, List.append_assoc]
      · simp [savePreloaded, hok, hflag]
    · refine ⟨0, by simp, ?_, ?_⟩
      · simp [savePreloaded, hok]
      · simp [savePreloaded, hok]

/-- Every Event in the disabled list comes from the original list, unchanged
or with only its status set to disabled. -/
lemma disableFirst_mem (es : List Event) (eid : String) (e2 : Event)
    (h : e2 ∈ disableFirst es eid) :
    ∃ e1 ∈ es, e2 = e1 ∨ e2 = { e1 with status := "disabled" } := by
  induction es with
  | nil => simp [disableFirst] at h
  | cons e es ih =>
    by_cases he : e.eventId = eid
    · rw [disableFirst, if_pos he] at h
      rcases List.mem_cons.mp h with h1 | h1
      · exact ⟨e, List.mem_cons_self e es, Or.inr h1⟩
      · exact ⟨e2, List.mem_cons_of_mem e h1, Or.inl rfl⟩
    · rw [disableFirst, if_neg he] at h
      rcases List.mem_cons.mp h with h1 | h1
      · exact ⟨e, List.mem_cons_self e es, Or.inl h1⟩
      · obtain ⟨e1, he1, hor⟩ := ih h1
        exact ⟨e1, List.mem_cons_of_mem e he1, hor⟩

/-- The store coming out of the text handler is the input store, possibly
with one Event disabled. -/
lemma handleText_store (dbOk : Bool) (m : SessMap) (st : Store) (uid text : String) :
    (handleText dbOk m st uid text).2.1 = st ∨
    (handleText dbOk m st uid text).2.1 = disableEvent st text := by
  unfold handleText
  cases lookupS m uid with
  | none => exact Or.inl rfl
  | some s =>
    repeat' split
    all_goals first | exact Or.inl rfl | exact Or.inr rfl

/-! ### Claim theorems -/

/-- C1 counterexample: the upload route does not give the missing-event case
its own rejection kind.  A request for a nonexistent event receives exactly
the response (HTTP 400, body "Uploads not allowed") that a disabled event
receives, so no distinct NotFound outcome exists on this path. -/
theorem C1_counterexample :
    (submit { events := [], photos := [] } "E1" "ip" "ua" (.ok refA)).1 =
      (submit { events := [evDisabled], photos := [] } "E2" "ip" "ua" (.ok refA)).1 ∧
    (submit { events := [], photos := [] } "E1" "ip" "ua" (.ok refA)).1 =
      .err 400 "Uploads not allowed" ∧
    findEvent { events := [], photos := [] } "E1" = none ∧
    evDisabled.status = "disabled" := by
  decide

/-- C1 (amended): admission checks run in order with the first failure
winning, but the first three gates share one rejection: a missing event, a
disabled event and a viewalbum event each answer 400 "Uploads not allowed",
while only an exhausted quota answers 400 "Upload limit reached" (and the
quota gate is only reached when the earlier gates pass). -/
theorem C1_admissionOrder (st : Store) (eid ip ua : String)
    (img : Except Unit ImgRef) :
    (findEvent st eid = none →
       submit st eid ip ua img = (.err 400 "Uploads not allowed", st)) ∧
    (∀ e, findEvent st eid = some e → e.status = "disabled" →
       submit st eid ip ua img = (.err 400 "Uploads not allowed", st)) ∧
    (∀ e, findEvent st eid = some e → e.serviceType = "viewalbum" →
       submit st eid ip ua img = (.err 400 "Uploads not allowed", st)) ∧
    (∀ e, findEvent st eid = some e → e.status ≠ "disabled" →
       e.serviceType ≠ "viewalbum" →
       e.uploadLimit ≤ (guestCount st eid ip : Int) →
       submit st eid ip ua img = (.err 400 "Upload limit reached", st)) := by
  refine ⟨?_, ?_, ?_, ?_⟩
  · intro h; simp [submit, h]
  · intro e he hs; simp [submit, he, hs]
  · intro e he hv; simp [submit, he, hv]
  · intro e he hs hv hcnt; simp [submit, he, hs, hv, hcnt]

/-- C1 witness: with Event `E4` (limit 1) and one prior guest Photo from
`ip1`, a further submission from `ip1` is rejected for quota. -/
theorem C1_witness :
    submit stQ "E4" "ip1" "ua1" (.ok refA) = (.err 400 "Upload limit reached", stQ) :=
  (C1_admissionOrder stQ "E4" "ip1" "ua1" (.ok refA)).2.2.2 evOne
    (by decide) (by decide) (by decide) (by decide)

/-- C8: for every existing Event, the query surface's derived uploadEnabled
flag is true iff the Event's status is active and its serviceType is not
viewalbum, and false in every other combination. -/
theorem C8_uploadEnabled (st : Store) (eid : String) (r : EventSummary)
    (h : getEvent st eid = some r) :
    r.uploadEnabled = true ↔
      (r.event.status = "active" ∧ r.event.serviceType ≠ "viewalbum") := by
  unfold getEvent at h
  cases hf : findEvent st eid with
  | none => rw [hf] at h; exact absurd h (by simp)
  | some e =>
    rw [hf] at h
    obtain rfl := Option.some.inj h
    simp

/-- C8 witness: the flag of the summary served for the active Event `E1`. -/
theorem C8_witness :
    rW.uploadEnabled = true ↔
      (rW.event.status = "active" ∧ rW.event.serviceType ≠ "viewalbum") :=
  C8_uploadEnabled stA "E1" rW (by decide)

/-- C10: a text message, a photo message or a completion signal from a user
with no active session changes nothing: no session is created, no draft is
mutated, nothing is persisted and no reply is sent; only the start and
disable commands install a session. -/
theorem C10_noSession (m : SessMap) (st : Store) (uid : String)
    (h : lookupS m uid = none) :
    (∀ dbOk text, handleText dbOk m st uid text = (m, st, [])) ∧
    (∀ img, handlePhoto m st uid img = (m, st, [])) ∧
    (∀ saveOk frontendUrl, finalizeDone saveOk frontendUrl m st uid = (m, st, [])) ∧
    (∀ eid, lookupS (handleStart m uid eid).1 uid =
       some { step := "welcomeText", eventData := initDraft eid uid }) ∧
    lookupS (handleDisableCmd m uid).1 uid =
       some { step := "eventIdForDisable", eventData := emptyDraft } := by
  refine ⟨?_, ?_, ?_, ?_, ?_⟩
  · intro dbOk text; simp [handleText, h]
  · intro img; simp [handlePhoto, h]
  · intro saveOk frontendUrl; simp [finalizeDone, h]
  · intro eid; simp [handleStart, lookupS_mapSet_self]
  · simp [handleDisableCmd, lookupS_mapSet_self]

/-- C10 witness: concrete no-session user "ghost" over the store `stA`. -/
theorem C10_witness :
    handleText true emptyMap stA "ghost" "hello" = (emptyMap, stA, []) ∧
    handlePhoto emptyMap stA "ghost" (.ok refA) = (emptyMap, stA, []) ∧
    finalizeDone (fun _ => true) "https://front" emptyMap stA "ghost" =
      (emptyMap, stA, []) :=
  ⟨(C10_noSession emptyMap stA "ghost" rfl).1 true "hello",
   (C10_noSession emptyMap stA "ghost" rfl).2.1 (.ok refA),
   (C10_noSession emptyMap stA "ghost" rfl).2.2.1 (fun _ => true) "https://front"⟩

/-- C5: an inbound text that fails the current step's validation leaves the
session map (hence the step and the accumulated draft) and the durable
store unchanged; the offending input is discarded. -/
theorem C5_invalidFrame (dbOk : Bool) (m : SessMap) (st : Store)
    (uid text : String) (s : Session)
    (hs : lookupS m uid = some s) (hinv : invalidInput st s text = true) :
    (handleText dbOk m st uid text).1 = m ∧
    (handleText dbOk m st uid text).2.1 = st := by
  by_cases h1 : s.step = "welcomeText"
  · rw [invalidInput, if_pos h1] at hinv
    simp [handleText, hs, h1, of_decide_eq_true hinv]
  · by_cases h2 : s.step = "description"
    · rw [invalidInput, if_neg h1, if_pos h2] at hinv
      simp [handleText, hs, h1, h2, of_decide_eq_true hinv]
    · by_cases h3 : s.step = "serviceType"
      · rw [invalidInput, if_neg h1, if_neg h2, if_pos h3] at hinv
        simp [handleText, hs, h1, h2, h3, of_decide_eq_true hinv]
      · by_cases h4 : s.step = "uploadLimit"
        · rw [invalidInput, if_neg h1, if_neg h2, if_neg h3, if_pos h4] at hinv
          cases hp : parseIntJS text with
          | none => simp [handleText, hs, h1, h2, h3, h4, hp]
          | some v =>
            rw [hp] at hinv
            simp [handleText, hs, h1, h2, h3, h4, hp, of_decide_eq_true hinv]
        · by_cases h5 : s.step = "eventIdForDisable"
          · rw [invalidInput, if_neg h1, if_neg h2, if_neg h3, if_neg h4,
              if_pos h5] at hinv
            rw [Option.isNone_iff_eq_none] at hinv
            simp [handleText, hs, h1, h2, h3, h4, h5, hinv]
          · rw [invalidInput, if_neg h1, if_neg h2, if_neg h3, if_neg h4,
              if_neg h5] at hinv
            exact absurd hinv (by simp)

/-- C5 witness: a 101-character welcome text is rejected without touching
the session map or the store. -/
theorem C5_witness :
    (handleText true mW stA "u1" t101).1 = mW ∧
    (handleText true mW stA "u1" t101).2.1 = stA :=
  C5_invalidFrame true mW stA "u1" t101 sWT (by decide) (by decide)

/-- C6: at the welcomeText step a text of exactly 100 characters is accepted
and advances the session to description, while 101 characters are rejected;
at the description step 200 characters are accepted, advancing to
backgroundImage, while 201 are rejected. -/
theorem C6_lengthBoundaries (dbOk : Bool) (m : SessMap) (st : Store)
    (uid text : String) (s : Session) (hs : lookupS m uid = some s) :
    (s.step = "welcomeText" → text.length = 100 →
       handleText dbOk m st uid text =
         (mapSet m uid { s with
            eventData := { s.eventData with welcomeText := some text }
            step := "description" },
          st, ["✅ Now enter description (max 200 chars):"])) ∧
    (s.step = "welcomeText" → text.length = 101 →
       handleText dbOk m st uid text = (m, st, ["❌ Too long! Max 100 chars:"])) ∧
    (s.step = "description" → text.length = 200 →
       handleText dbOk m st uid text =
         (mapSet m uid { s with
            eventData := { s.eventData with description := some text }
            step := "backgroundImage" },
          st, ["✅ Now send background image:"])) ∧
    (s.step = "description" → text.length = 201 →
       handleText dbOk m st uid text = (m, st, ["❌ Too long! Max 200 chars:"])) := by
  refine ⟨?_, ?_, ?_, ?_⟩
  · intro hw hl
    have : ¬ 100 < text.length := by omega
    simp [handleText, hs, hw, this]
  · intro hw hl
    have : 100 < text.length := by omega
    simp [handleText, hs, hw, this]
  · intro hd hl
    have : ¬ 200 < text.length := by omega
    simp [handleText, hs, hd, this]
  · intro hd hl
    have : 200 < text.length := by omega
    simp [handleText, hs, hd, this]

/-- C6 witness: the concrete 100-character text is accepted at the
welcomeText step of session `sWT`. -/
theorem C6_witness :
    handleText true mW stA "u1" t100 =
      (mapSet mW "u1" { sWT with
         eventData := { sWT.eventData with welcomeText := some t100 }
         step := "description" },
       stA, ["✅ Now enter description (max 200 chars):"]) :=
  (C6_lengthBoundaries true mW stA "u1" t100 sWT (by decide)).1 rfl (by decide)

/-- C7: at the uploadLimit step, a text whose `parseInt` result is NaN or
outside [1,20] is rejected without advancing, while the boundary inputs
"1" and "20" are accepted and stored in the draft. -/
theorem C7_uploadLimitStep (dbOk : Bool) (m : SessMap) (st : Store)
    (uid : String) (s : Session)
    (hs : lookupS m uid = some s) (hstep : s.step = "uploadLimit") :
    (∀ text, parseIntJS text = none →
       handleText dbOk m st uid text = (m, st, ["❌ Enter number 1-20:"])) ∧
    (∀ text v, parseIntJS text = some v → v < 1 ∨ 20 < v →
       handleText dbOk m st uid text = (m, st, ["❌ Enter number 1-20:"])) ∧
    (handleText dbOk m st uid "1" =
       (mapSet m uid { s with
          eventData := { s.eventData with uploadLimit := some 1 }
          step := "preloadedPhotos" },
        st, ["✅ Send preloaded photos (type /done when finished):"])) ∧
    (handleText dbOk m st uid "20" =
       (mapSet m uid { s with
          eventData := { s.eventData with uploadLimit := some 20 }
          step := "preloadedPhotos" },
        st, ["✅ Send preloaded photos (type /done when finished):"])) := by
  refine ⟨?_, ?_, ?_, ?_⟩
  · intro text hp
    simp [handleText, hs, hstep, hp]
  · intro text v hp hout
    simp [handleText, hs, hstep, hp, hout]
  · have hp : parseIntJS "1" = some 1 := by decide
    have hout : ¬ ((1 : Int) < 1 ∨ 20 < (1 : Int)) := by omega
    simp [handleText, hs, hstep, hp, hout]
  · have hp : parseIntJS "20" = some 20 := by decide
    have hout : ¬ ((20 : Int) < 1 ∨ 20 < (20 : Int)) := by omega
    simp [handleText, hs, hstep, hp, hout]

/-- C7 witness: the non-numeric input "abc" and the out-of-range input "21"
are rejected for session `sUL`, and "20" is accepted. -/
theorem C7_witness :
    handleText true mUL stA "u1" "abc" = (mUL, stA, ["❌ Enter number 1-20:"]) ∧
    handleText true mUL stA "u1" "21" = (mUL, stA, ["❌ Enter number 1-20:"]) ∧
    handleText true mUL stA "u1" "20" =
      (mapSet mUL "u1" { sUL with
         eventData := { sUL.eventData with uploadLimit := some 20 }
         step := "preloadedPhotos" },
       stA, ["✅ Send preloaded photos (type /done when finished):"]) :=
  ⟨(C7_uploadLimitStep true mUL stA "u1" sUL (by decide) rfl).1 "abc" (by decide),
   (C7_uploadLimitStep true mUL stA "u1" sUL (by decide) rfl).2.1 "21" 21
     (by decide) (by omega),
   (C7_uploadLimitStep true mUL stA "u1" sUL (by decide) rfl).2.2.2⟩

/-- C2: for an existing Event whose status and mode gates pass, a guest
submission is admitted iff the prior guest-Photo count for the
(eventId, uploader-ip) pair is strictly below the uploadLimit; with
uploadLimit 2 and no prior uploads, the same ip succeeds on the first and
second submission and is rejected for quota on the third, regardless of
the images involved. -/
theorem C2_quota (st : Store) (eid ip ua : String) (e : Event)
    (hfind : findEvent st eid = some e) (hact : e.status = "active")
    (hview : e.serviceType ≠ "viewalbum") :
    (∀ ref, ((submit st eid ip ua (.ok ref)).1).isOk = true ↔
       (guestCount st eid ip : Int) < e.uploadLimit) ∧
    (e.uploadLimit = 2 → guestCount st eid ip = 0 → ∀ r1 r2 r3 : ImgRef,
       ((submit st eid ip ua (.ok r1)).1).isOk = true ∧
       ((submit (submit st eid ip ua (.ok r1)).2 eid ip ua (.ok r2)).1).isOk = true ∧
       (submit (submit (submit st eid ip ua (.ok r1)).2 eid ip ua (.ok r2)).2
          eid ip ua (.ok r3)).1 = .err 400 "Upload limit reached") := by
  have hdis : e.status ≠ "disabled" := by rw [hact]; decide
  constructor
  · intro ref
    constructor
    · intro hok
      by_contra hge
      push_neg at hge
      rw [submit_reject_quota st eid ip ua e (.ok ref) hfind hdis hview hge] at hok
      simp [UploadResult.isOk] at hok
    · intro hlt
      rw [submit_accepts st eid ip ua e ref hfind hdis hview hlt]
      rfl
  · intro hl h0 r1 r2 r3
    have hcnt1 : (guestCount st eid ip : Int) < e.uploadLimit := by
      rw [h0, hl]; decide
    have h1 := submit_accepts st eid ip ua e r1 hfind hdis hview hcnt1
    have hfind1 : findEvent (submit st eid ip ua (.ok r1)).2 eid = some e := by
      rw [h1, findEvent_setPhotos]; exact hfind
    have hg1 : guestCount (submit st eid ip ua (.ok r1)).2 eid ip = 1 := by
      rw [h1, guestCount_append_guest, h0]
    have hcnt2 : (guestCount (submit st eid ip ua (.ok r1)).2 eid ip : Int)
        < e.uploadLimit := by
      rw [hg1, hl]; decide
    have h2 := submit_accepts (submit st eid ip ua (.ok r1)).2 eid ip ua e r2
      hfind1 hdis hview hcnt2
    have hfind2 : findEvent (submit (submit st eid ip ua (.ok r1)).2
        eid ip ua (.ok r2)).2 eid = some e := by
      rw [h2, findEvent_setPhotos]; exact hfind1
    have hg2 : guestCount (submit (submit st eid ip ua (.ok r1)).2
        eid ip ua (.ok r2)).2 eid ip = 2 := by
      rw [h2, guestCount_append_guest, hg1]
    have hcnt3 : e.uploadLimit ≤ (guestCount (submit (submit st eid ip ua (.ok r1)).2
        eid ip ua (.ok r2)).2 eid ip : Int) := by
      rw [hg2, hl]; decide
    refine ⟨?_, ?_, ?_⟩
    · rw [h1]; rfl
    · rw [h2]; rfl
    · rw [submit_reject_quota _ eid ip ua e (.ok r3) hfind2 hdis hview hcnt3]

/-- C2 witness: for the active Event `E1` (uploadLimit 2) over the empty
photo store, ip `ip9` succeeds twice and is rejected on the third upload. -/
theorem C2_witness :
    ((submit stA "E1" "ip9" "ua9" (.ok refA)).1).isOk = true ∧
    ((submit (submit stA "E1" "ip9" "ua9" (.ok refA)).2
        "E1" "ip9" "ua9" (.ok refA)).1).isOk = true ∧
    (submit (submit (submit stA "E1" "ip9" "ua9" (.ok refA)).2
        "E1" "ip9" "ua9" (.ok refA)).2 "E1" "ip9" "ua9" (.ok refB)).1 =
      .err 400 "Upload limit reached" :=
  (C2_quota stA "E1" "ip9" "ua9" evA (by decide) rfl (by decide)).2
    rfl rfl refA refA refB

/-- C3: with every save succeeding, the completion signal in the
preloadedPhotos step persists exactly one Event built from the draft and
one preloaded-tagged Photo per collected image (each carrying the draft's
eventId), discards the session and replies with the event URL; in any
other step, and for a user without a session, the signal changes nothing. -/
theorem C3_finalize (frontendUrl : String) (m : SessMap) (st : Store)
    (uid : String) :
    (∀ s, lookupS m uid = some s → s.step = "preloadedPhotos" →
       finalizeDone (fun _ => true) frontendUrl m st uid =
         (mapDel m uid,
          { st with
              events := st.events ++ [eventOfDraft s.eventData]
              photos := st.photos ++
                s.eventData.preloadedPhotos.map
                  (mkPreloadedPhoto s.eventData.eventId) },
          [doneReply frontendUrl s.eventData.eventId])) ∧
    (∀ s saveOk, lookupS m uid = some s → s.step ≠ "preloadedPhotos" →
       finalizeDone saveOk frontendUrl m st uid = (m, st, [])) ∧
    (lookupS m uid = none → ∀ saveOk,
       finalizeDone saveOk frontendUrl m st uid = (m, st, [])) := by
  refine ⟨?_, ?_, ?_⟩
  · intro s hl hstep
    simp [finalizeDone, hl, hstep, savePreloaded_allOk]
  · intro s saveOk hl hstep
    simp [finalizeDone, hl, hstep]
  · intro hl saveOk
    simp [finalizeDone, hl]

/-- C3 witness: finalizing the concrete session `sC` (draft `dC`, two
collected images) persists one Event and two preloaded Photos. -/
theorem C3_witness :
    finalizeDone (fun _ => true) "https://front" mC stA "u9" =
      (mapDel mC "u9",
       { stA with
           events := stA.events ++ [eventOfDraft dC]
           photos := stA.photos ++
             dC.preloadedPhotos.map (mkPreloadedPhoto dC.eventId) },
       [doneReply "https://front" dC.eventId]) :=
  (C3_finalize "https://front" mC stA "u9").1 sC (by decide) rfl

/-- C4 counterexample: finalization is not atomic.  With the concrete
session `sC` (two collected images) over the empty store, let the Event
save and the first Photo save succeed and the second Photo save fail: the
handler reports the failure, yet the Event and the first preloaded Photo
remain persisted — the durable store is not left unchanged as the claim
states. -/
theorem C4_counterexample :
    (finalizeDone (fun n => decide (n ≤ 1)) "https://front" mC
        { events := [], photos := [] } "u9").2.2 =
      ["❌ Failed to create event"] ∧
    (finalizeDone (fun n => decide (n ≤ 1)) "https://front" mC
        { events := [], photos := [] } "u9").2.1 ≠
      { events := [], photos := [] } ∧
    (finalizeDone (fun n => decide (n ≤ 1)) "https://front" mC
        { events := [], photos := [] } "u9").2.1.events = [eventOfDraft dC] ∧
    (finalizeDone (fun n => decide (n ≤ 1)) "https://front" mC
        { events := [], photos := [] } "u9").2.1.photos =
      [mkPreloadedPhoto "E7" refA] := by
  decide

/-- C4 (amended): on a finalization failure the handler reports an error
and the session is discarded in every case, but the store is only left
unchanged when the Event save itself fails; when a later Photo save fails,
the Event and the Photos saved before the failure (a proper prefix of the
collected images) remain persisted. -/
theorem C4_failure (saveOk : Nat → Bool) (frontendUrl : String) (m : SessMap)
    (st : Store) (uid : String) (s : Session)
    (hl : lookupS m uid = some s) (hstep : s.step = "preloadedPhotos") :
    (finalizeDone saveOk frontendUrl m st uid).1 = mapDel m uid ∧
    (saveOk 0 = false →
       (finalizeDone saveOk frontendUrl m st uid).2 =
         (st, ["❌ Failed to create event"])) ∧
    (saveOk 0 = true →
       ∃ k, k ≤ s.eventData.preloadedPhotos.length ∧
         (finalizeDone saveOk frontendUrl m st uid).2.1 =
           { st with
               events := st.events ++ [eventOfDraft s.eventData]
               photos := st.photos ++
                 ((s.eventData.preloadedPhotos.take k).map
                   (mkPreloadedPhoto s.eventData.eventId)) } ∧
         (k = s.eventData.preloadedPhotos.length →
            (finalizeDone saveOk frontendUrl m st uid).2.2 =
              [doneReply frontendUrl s.eventData.eventId]) ∧
         (k < s.eventData.preloadedPhotos.length →
            (finalizeDone saveOk frontendUrl m st uid).2.2 =
              ["❌ Failed to create event"])) := by
  by_cases h0 : saveOk 0 = true
  · obtain ⟨k, hk, hst, hflag⟩ := savePreloaded_spec saveOk
      s.eventData.eventId s.eventData.preloadedPhotos 1
      { st with events := st.events ++ [eventOfDraft s.eventData] }
    refine ⟨?_, ?_, ?_⟩
    · simp [finalizeDone, hl, hstep, h0]
    · intro hfalse; rw [h0] at hfalse; exact absurd hfalse (by simp)
    · intro _
      refine ⟨k, hk, ?_, ?_, ?_⟩
      · simp [finalizeDone, hl, hstep, h0, hst]
      · intro hkeq
        have hfl := hflag.mpr hkeq
        simp [finalizeDone, hl, hstep, h0, hfl]
      · intro hklt
        have hfl : (savePreloaded saveOk s.eventData.eventId
            s.eventData.preloadedPhotos 1
            { st with events := st.events ++ [eventOfDraft s.eventData] }).2 = false := by
          rcases Bool.eq_false_or_eq_true (savePreloaded saveOk s.eventData.eventId
              s.eventData.preloadedPhotos 1
              { st with events := st.events ++ [eventOfDraft s.eventData] }).2 with
            ht | hf
          · exact absurd (hflag.mp ht) (Nat.ne_of_lt hklt)
          · exact hf
        simp [finalizeDone, hl, hstep, h0, hfl]
  · have h0f : saveOk 0 = false := by
      rcases Bool.eq_false_or_eq_true (saveOk 0) with ht | hf
      · exact absurd ht h0
      · exact hf
    refine ⟨?_, ?_, ?_⟩
    · simp [finalizeDone, hl, hstep, h0f]
    · intro _; simp [finalizeDone, hl, hstep, h0f]
    · intro htrue; exact absurd htrue h0

/-- C4 witness: with the Event save failing outright for session `sC`, the
store is unchanged, the failure is reported and the session is discarded. -/
theorem C4_witness :
    (finalizeDone (fun _ => false) "https://front" mC stA "u9").1 =
      mapDel mC "u9" ∧
    (finalizeDone (fun _ => false) "https://front" mC stA "u9").2 =
      (stA, ["❌ Failed to create event"]) :=
  ⟨(C4_failure (fun _ => false) "https://front" mC stA "u9" sC
      (by decide) rfl).1,
   (C4_failure (fun _ => false) "https://front" mC stA "u9" sC
      (by decide) rfl).2.1 rfl⟩

/-- C9: after creation no Event field other than status is ever mutated.
The Gatekeeper leaves the Event collection untouched; the text handler
(which contains the disable flow) returns every stored Event either
unchanged or with only its status switched to disabled, all other fields
intact.  The query surface is a pure read in this model and mutates
nothing by construction. -/
theorem C9_eventImmutable :
    (∀ st eid ip ua img, ((submit st eid ip ua img).2).events = st.events) ∧
    (∀ dbOk m st uid text e2,
       e2 ∈ ((handleText dbOk m st uid text).2.1).events →
       ∃ e1 ∈ st.events,
         e2.eventId = e1.eventId ∧ e2.welcomeText = e1.welcomeText ∧
         e2.description = e1.description ∧
         e2.backgroundImage = e1.backgroundImage ∧
         e2.serviceType = e1.serviceType ∧ e2.uploadLimit = e1.uploadLimit ∧
         e2.preloadedPhotos = e1.preloadedPhotos ∧
         e2.createdBy = e1.createdBy ∧
         (e2.status = e1.status ∨ e2.status = "disabled")) := by
  constructor
  · intro st eid ip ua img
    unfold submit
    cases findEvent st eid with
    | none => rfl
    | some e =>
      repeat' split
      all_goals rfl
  · intro dbOk m st uid text e2 h2
    have hbase : ∀ e2, e2 ∈ st.events →
        ∃ e1 ∈ st.events,
          e2.eventId = e1.eventId ∧ e2.welcomeText = e1.welcomeText ∧
          e2.description = e1.description ∧
          e2.backgroundImage = e1.backgroundImage ∧
          e2.serviceType = e1.serviceType ∧ e2.uploadLimit = e1.uploadLimit ∧
          e2.preloadedPhotos = e1.preloadedPhotos ∧
          e2.createdBy = e1.createdBy ∧
          (e2.status = e1.status ∨ e2.status = "disabled") := by
      intro e h
      exact ⟨e, h, rfl, rfl, rfl, rfl, rfl, rfl, rfl, rfl, Or.inl rfl⟩
    rcases handleText_store dbOk m st uid text with hst | hst
    · rw [hst] at h2
      exact hbase e2 h2
    · rw [hst] at h2
      obtain ⟨e1, he1, hor⟩ := disableFirst_mem st.events text e2 h2
      rcases hor with h | h
      · rw [h]; exact hbase e1 he1
      · rw [h]
        exact ⟨e1, he1, rfl, rfl, rfl, rfl, rfl, rfl, rfl, rfl, Or.inr rfl⟩

/-- C9 witness: disabling Event `E1` through the disable flow yields a
stored Event differing from the original only in its status. -/
theorem C9_witness :
    ∃ e1 ∈ stA.events,
      evDis1.eventId = e1.eventId ∧ evDis1.welcomeText = e1.welcomeText ∧
      evDis1.description = e1.description ∧
      evDis1.backgroundImage = e1.backgroundImage ∧
      evDis1.serviceType = e1.serviceType ∧ evDis1.uploadLimit = e1.uploadLimit ∧
      evDis1.preloadedPhotos = e1.preloadedPhotos ∧
      evDis1.createdBy = e1.createdBy ∧
      (evDis1.status = e1.status ∨ evDis1.status = "disabled") :=
  C9_eventImmutable.2 true mDis stA "u2" "E1" evDis1 (by decide)
